import Mathlib

/-!
The JumpCloud user resource (`jumpcloud/resource_user.go`)

A shallow embedding of the Terraform resource adapter for JumpCloud users:
the declared schema, the configuration adapter and the four lifecycle
operations, followed by theorems about them.

What the Go file takes from its two libraries is modelled as follows.

* `schema.ResourceData` (hashicorp/terraform `helper/schema`) is a record
  holding the resource id and the attribute values written so far.  `Get`
  and `Set` follow the documented contract of that package: `Get` "returns
  the data for the given key, or nil if the key doesn't exist in the schema",
  and the zero value of the declared type when the key is declared but has
  no value; `Set` returns an error "if the key is invalid or the value is
  not a correct type".
* The JumpCloud client library (`jcapi-go/v1`) is a parameter: a record of
  functions giving, for each remote call, the returned object and error.
  The raw HTTP response, which the Go code discards, is left out.
* A failed single-value type assertion `x.(T)` is a run-time panic, so the
  operations that use one return in `Except GoPanic`.
* Create and update are written in two parts, as in the source: the request
  built from the local state, then the remote call on that request and what
  follows it.  The payload literal of update takes the accessor `d.Get` as
  a parameter.
-/

namespace Jumpcloud

/-! ## Go values -/

/-- Go error values: `lib` is an error value handed back by a library call
(the number tells apart distinct values with the same text), `errorf` is
the result of `fmt.Errorf`. -/
inductive GoError where
  | lib (kind : Nat) (msg : String)
  | errorf (msg : String)
  deriving DecidableEq, Repr

/-- The method `Error()` of a Go error. -/
def GoError.Error : GoError → String
  | .lib _ msg => msg
  | .errorf msg => msg

/-- A run-time panic of a failed type assertion `x.(T)`: the dynamic type
found and the type asserted. -/
structure GoPanic where
  dynamic : String
  asserted : String
  deriving DecidableEq, Repr

/-- Values of type `interface{}` as they flow through `d.Get` and `d.Set`:
the nil interface, `string`, `bool`, `int` and `int32`. -/
inductive Value where
  | nil
  | str (s : String)
  | bool (b : Bool)
  | int (n : Int)
  | int32 (n : Int)
  deriving DecidableEq, Repr

/-- Name of the dynamic type, as a panic message prints it. -/
def Value.typeName : Value → String
  | .nil => "nil"
  | .str _ => "string"
  | .bool _ => "bool"
  | .int _ => "int"
  | .int32 _ => "int32"

/-- The type assertion `v.(string)`. -/
def Value.assertString (v : Value) : Except GoPanic String :=
  match v with
  | .str s => .ok s
  | _ => .error ⟨v.typeName, "string"⟩

/-- The type assertion `v.(bool)`. -/
def Value.assertBool (v : Value) : Except GoPanic Bool :=
  match v with
  | .bool b => .ok b
  | _ => .error ⟨v.typeName, "bool"⟩

/-- The type assertion `v.(int32)`. -/
def Value.assertInt32 (v : Value) : Except GoPanic Int :=
  match v with
  | .int32 n => .ok n
  | _ => .error ⟨v.typeName, "int32"⟩

/-- A Go `map[string]string`; reading a missing key gives the empty string. -/
abbrev GoMap := List (String × String)

/-- Map indexing `m[k]`. -/
def GoMap.get (m : GoMap) (k : String) : String :=
  (m.lookup k).getD ""

/-- Map assignment `m[k] = v`. -/
def GoMap.set (m : GoMap) (k v : String) : GoMap :=
  (k, v) :: m.filter (fun kv => kv.1 != k)

/-! ## The schema (`resourceUser`) -/

/-- The `schema.ValueType` constants the resource uses. -/
inductive ValueType where
  | TypeBool
  | TypeInt
  | TypeString
  deriving DecidableEq, Repr

/-- The fields of `schema.Schema` the resource sets. -/
structure Schema where
  Type_ : ValueType
  Required : Bool := false
  Optional : Bool := false
  deriving DecidableEq, Repr

/-- The part of `schema.Resource` that is data: the schema map.  The four
function fields are the operations defined below. -/
structure Resource where
  Schema : List (String × Schema)
  deriving Repr

/-- The function `resourceUser`: the declared schema. -/
def resourceUser : Resource :=
  { Schema :=
      [ ("username", { Type_ := .TypeString, Required := true }),
        ("xorgid", { Type_ := .TypeString, Optional := true }),
        ("email", { Type_ := .TypeString, Required := true }),
        ("firstname", { Type_ := .TypeString, Optional := true }),
        ("lastname", { Type_ := .TypeString, Optional := true }),
        ("enable_mfa", { Type_ := .TypeBool, Optional := true }),
        ("ldap_binding", { Type_ := .TypeBool, Optional := true }),
        ("id_sync", { Type_ := .TypeBool, Optional := true }),
        ("global_admin", { Type_ := .TypeBool, Optional := true }),
        ("passwordless_sudo", { Type_ := .TypeBool, Optional := true }),
        ("unix_uid", { Type_ := .TypeInt, Optional := true }),
        ("unix_guid", { Type_ := .TypeInt, Optional := true }) ] }

/-- The keys the schema declares. -/
def schemaKeys : List String :=
  resourceUser.Schema.map Prod.fst

/-! ## The local state (`schema.ResourceData`) -/

/-- The local state of one user resource: its id and the attribute values
held for the declared keys. -/
structure ResourceData where
  id : String
  attrs : List (String × Value)
  deriving DecidableEq, Repr

/-- The zero value `Get` returns for a declared key without a value. -/
def ValueType.zero : ValueType → Value
  | .TypeBool => .bool false
  | .TypeInt => .int 0
  | .TypeString => .str ""

/-- Conversion of a value handed to `Set` into the declared type: a
`string` for `TypeString`, a `bool` for `TypeBool`, any Go integer for
`TypeInt` (stored as `int`); anything else is not a correct type. -/
def ValueType.coerce : ValueType → Value → Option Value
  | .TypeString, .str s => some (.str s)
  | .TypeBool, .bool b => some (.bool b)
  | .TypeInt, .int n => some (.int n)
  | .TypeInt, .int32 n => some (.int n)
  | _, _ => none

/-- The method `d.Id()`. -/
def ResourceData.Id (d : ResourceData) : String :=
  d.id

/-- The method `d.SetId(v)`. -/
def ResourceData.SetId (d : ResourceData) (v : String) : ResourceData :=
  { d with id := v }

/-- The method `d.Get(key)`: nil when the key is not in the schema, else
the value held, else the zero value of the declared type. -/
def ResourceData.Get (d : ResourceData) (key : String) : Value :=
  match resourceUser.Schema.lookup key with
  | none => .nil
  | some s =>
    match d.attrs.lookup key with
    | some v => v
    | none => s.Type_.zero

/-- The method `d.Set(key, value)`: an error when the key is not in the
schema or the value is not of a correct type, else the value is stored; a
nil value removes the entry. -/
def ResourceData.Set (d : ResourceData) (key : String) (value : Value) :
    Option GoError × ResourceData :=
  match resourceUser.Schema.lookup key with
  | none =>
    (some (.errorf ("Invalid address to set: []string\x7b\"" ++ key ++ "\"\x7d")), d)
  | some s =>
    match value with
    | .nil => (none, { d with attrs := d.attrs.filter (fun kv => kv.1 != key) })
    | v =>
      match s.Type_.coerce v with
      | none =>
        (some (.errorf (key ++ ": expected type of the schema, got unconvertible type "
          ++ v.typeName)), d)
      | some w =>
        (none, { d with attrs := (key, w) :: d.attrs.filter (fun kv => kv.1 != key) })

/-! ## The client library (`jcapiv1`, `jcapiv2`) -/

/-- The struct `jcapiv2.Configuration`, as far as the code reads it. -/
structure ConfigurationV2 where
  DefaultHeader : GoMap
  deriving DecidableEq, Repr

/-- The struct `jcapiv1.Configuration`. -/
structure Configuration where
  BasePath : String
  Host : String
  Scheme : String
  DefaultHeader : GoMap
  UserAgent : String
  deriving DecidableEq, Repr

/-- The method `AddDefaultHeader(key, value)` of `jcapiv1.Configuration`. -/
def Configuration.AddDefaultHeader (c : Configuration) (key value : String) :
    Configuration :=
  { c with DefaultHeader := c.DefaultHeader.set key value }

/-- The struct `jcapiv1.Systemuserputpost`: the fields the create payload
fills. -/
structure Systemuserputpost where
  Username : String
  Email : String
  Firstname : String
  Lastname : String
  EnableUserPortalMultifactor : Bool
  LdapBindingUser : Bool
  EnableManagedUid : Bool
  Sudo : Bool
  PasswordlessSudo : Bool
  UnixUid : Int
  UnixGuid : Int
  deriving DecidableEq, Repr

/-- The struct `jcapiv1.Systemuserput`: the fields the update payload
fills. -/
structure Systemuserput where
  Username : String
  Email : String
  Firstname : String
  Lastname : String
  EnableUserPortalMultifactor : Bool
  LdapBindingUser : Bool
  EnableManagedUid : Bool
  Sudo : Bool
  UnixUid : Int
  UnixGuid : Int
  deriving DecidableEq, Repr

/-- The struct `jcapiv1.Systemuserreturn`: the fields the code reads. -/
structure Systemuserreturn where
  Id : String
  Username : String
  Email : String
  Firstname : String
  Lastname : String
  EnableUserPortalMultifactor : Bool
  LdapBindingUser : Bool
  EnableManagedUid : Bool
  Sudo : Bool
  PasswordlessSudo : Bool
  UnixUid : Int
  UnixGuid : Int
  deriving DecidableEq, Repr

/-- The optional-parameter map `req` of `SystemusersPost`. -/
structure PostOptionals where
  body : Systemuserputpost
  xOrgId : String
  deriving DecidableEq, Repr

/-- The optional-parameter map `req` of `SystemusersPut`. -/
structure PutOptionals where
  body : Systemuserput
  xOrgId : String
  deriving DecidableEq, Repr

/-- The service `client.SystemusersApi`: each call gives the returned
object and the error (`none` is Go nil).  The arguments are, in order, the
id (where there is one), the content type, the accept header and the
optional parameters (left out where the code passes nil). -/
structure SystemusersApiService where
  SystemusersPost : String → String → PostOptionals → Systemuserreturn × Option GoError
  SystemusersGet : String → String → String → Systemuserreturn × Option GoError
  SystemusersPut :
    String → String → String → PutOptionals → Systemuserreturn × Option GoError
  SystemusersDelete : String → String → String → Systemuserreturn × Option GoError

/-- The struct `jcapiv1.APIClient`. -/
structure APIClient where
  SystemusersApi : SystemusersApiService

/-- The package `jcapiv1` as the code uses it: the value `NewConfiguration()`
returns and the function `NewAPIClient`. -/
structure Jcapiv1 where
  NewConfiguration : Configuration
  NewAPIClient : Configuration → APIClient

/-! ## The operations -/

/-- The function `convertV2toV1Config`. -/
def convertV2toV1Config (jcapiv1 : Jcapiv1) (v2config : ConfigurationV2) : Configuration :=
  let configv1 := jcapiv1.NewConfiguration
  configv1.AddDefaultHeader "x-api-key" (v2config.DefaultHeader.get "x-api-key")

/-- The statement `if err := step; err != nil { return err }` followed by
the rest of the function body. -/
def orReturn (step : ResourceData → Option GoError × ResourceData)
    (rest : ResourceData → Option GoError × ResourceData) (d : ResourceData) :
    Option GoError × ResourceData :=
  match step d with
  | (some err, d1) => (some err, d1)
  | (none, d1) => rest d1

/-- The function `resourceUserRead`: the returned error and the local state
afterwards. -/
def resourceUserRead (jcapiv1 : Jcapiv1) (d : ResourceData) (m : ConfigurationV2) :
    Option GoError × ResourceData :=
  let configv1 := convertV2toV1Config jcapiv1 m
  let client := jcapiv1.NewAPIClient configv1
  match client.SystemusersApi.SystemusersGet d.Id "" "" with
  | (_, some err) =>
    if err.Error = "EOF" then (none, d.SetId "") else (some err, d)
  | (res, none) =>
    (orReturn (fun d => d.Set "username" (.str res.Username)) <|
     orReturn (fun d => d.Set "email" (.str res.Email)) <|
     orReturn (fun d => d.Set "firstname" (.str res.Firstname)) <|
     orReturn (fun d => d.Set "lastname" (.str res.Lastname)) <|
     orReturn (fun d => d.Set "enable_mfa" (.bool res.EnableUserPortalMultifactor)) <|
     orReturn (fun d => d.Set "ldap_binding" (.bool res.LdapBindingUser)) <|
     orReturn (fun d => d.Set "id_sync" (.bool res.EnableManagedUid)) <|
     orReturn (fun d => d.Set "global_admin" (.bool res.Sudo)) <|
     orReturn (fun d => d.Set "passwordless_sudo" (.bool res.PasswordlessSudo)) <|
     orReturn (fun d => d.Set "unix_uid" (.int32 res.UnixUid)) <|
     orReturn (fun d => d.Set "unix_gid" (.int32 res.UnixGuid)) <|
     fun d => (none, d)) (d.SetId res.Id)

/-- The payload literal of `resourceUserCreate`; the field expressions are
evaluated in source order and the first failed assertion panics. -/
def resourceUserCreate_payload (d : ResourceData) : Except GoPanic Systemuserputpost := do
  let username ← (d.Get "username").assertString
  let email ← (d.Get "email").assertString
  let firstname ← (d.Get "firstname").assertString
  let lastname ← (d.Get "lastname").assertString
  let enableMfa ← (d.Get "enable_mfa").assertBool
  let ldapBinding ← (d.Get "ldap_binding").assertBool
  let idSync ← (d.Get "id_sync").assertBool
  let globalAdmin ← (d.Get "global_admin").assertBool
  let passwordlessSudo ← (d.Get "passwordless_sudo").assertBool
  let unixUid ← (d.Get "unix-uid").assertInt32
  let unixGuid ← (d.Get "unix-guid").assertInt32
  pure
    { Username := username
      Email := email
      Firstname := firstname
      Lastname := lastname
      EnableUserPortalMultifactor := enableMfa
      LdapBindingUser := ldapBinding
      EnableManagedUid := idSync
      Sudo := globalAdmin
      PasswordlessSudo := passwordlessSudo
      UnixUid := unixUid
      UnixGuid := unixGuid }

/-- The map `req` of `resourceUserCreate`. -/
def resourceUserCreate_req (d : ResourceData) : Except GoPanic PostOptionals := do
  let payload ← resourceUserCreate_payload d
  let xOrgId ← (d.Get "xorgid").assertString
  pure { body := payload, xOrgId := xOrgId }

/-- Lines 107-113 of `resourceUserCreate`: the POST of the request `req`
through `client`, and what follows it. -/
def resourceUserCreate_post (jcapiv1 : Jcapiv1) (client : APIClient) (d : ResourceData)
    (m : ConfigurationV2) (req : PostOptionals) : Option GoError × ResourceData :=
  match client.SystemusersApi.SystemusersPost "" "" req with
  | (_, some err) => (some err, d)
  | (returnstruc, none) => resourceUserRead jcapiv1 (d.SetId returnstruc.Id) m

/-- The function `resourceUserCreate`: a panic, or the returned error and
the local state afterwards. -/
def resourceUserCreate (jcapiv1 : Jcapiv1) (d : ResourceData) (m : ConfigurationV2) :
    Except GoPanic (Option GoError × ResourceData) := do
  let configv1 := convertV2toV1Config jcapiv1 m
  let client := jcapiv1.NewAPIClient configv1
  let req ← resourceUserCreate_req d
  pure (resourceUserCreate_post jcapiv1 client d m req)

/-- The payload literal of `resourceUserUpdate`.  The accessor `d.Get` of
the local state is the parameter `Get`, so that the literal is defined for
whatever the host framework returns under each key. -/
def resourceUserUpdate_payload (Get : String → Value) : Except GoPanic Systemuserput := do
  let username ← (Get "username").assertString
  let email ← (Get "email").assertString
  let firstname ← (Get "firstname").assertString
  let lastname ← (Get "lastname").assertString
  let enableMfa ← (Get "enable_mfa").assertBool
  let ldapBinding ← (Get "ldap_binding").assertBool
  let idSync ← (Get "id_sync").assertBool
  let globalAdmin ← (Get "global_admin").assertBool
  let unixUid ← (Get "unix-uid").assertInt32
  let unixGuid ← (Get "unix-guid").assertInt32
  pure
    { Username := username
      Email := email
      Firstname := firstname
      Lastname := lastname
      EnableUserPortalMultifactor := enableMfa
      LdapBindingUser := ldapBinding
      EnableManagedUid := idSync
      Sudo := globalAdmin
      UnixUid := unixUid
      UnixGuid := unixGuid }

/-- The map `req` of `resourceUserUpdate`, over the accessor `Get`. -/
def resourceUserUpdate_req (Get : String → Value) : Except GoPanic PutOptionals := do
  let payload ← resourceUserUpdate_payload Get
  let xOrgId ← (Get "xorgid").assertString
  pure { body := payload, xOrgId := xOrgId }

/-- Lines 197-202 of `resourceUserUpdate`: the PUT of the request `req`
through `client`, keyed by `d.Id()`, and what follows it. -/
def resourceUserUpdate_put (jcapiv1 : Jcapiv1) (client : APIClient) (d : ResourceData)
    (m : ConfigurationV2) (req : PutOptionals) : Option GoError × ResourceData :=
  match client.SystemusersApi.SystemusersPut d.Id "" "" req with
  | (_, some err) => (some err, d)
  | (_, none) => resourceUserRead jcapiv1 d m

/-- The function `resourceUserUpdate`: the request is built with the
accessor `d.Get` of the local state. -/
def resourceUserUpdate (jcapiv1 : Jcapiv1) (d : ResourceData) (m : ConfigurationV2) :
    Except GoPanic (Option GoError × ResourceData) := do
  let configv1 := convertV2toV1Config jcapiv1 m
  let client := jcapiv1.NewAPIClient configv1
  let req ← resourceUserUpdate_req d.Get
  pure (resourceUserUpdate_put jcapiv1 client d m req)

/-- The call `fmt.Errorf("error deleting user group:%s; response = %+v", err, res)`;
the rendering of a `Systemuserreturn` under `%+v` is the parameter `fmtPlusV`. -/
def deleteErrorf (fmtPlusV : Systemuserreturn → String) (err : GoError)
    (res : Systemuserreturn) : GoError :=
  .errorf ("error deleting user group:" ++ err.Error ++ "; response = " ++ fmtPlusV res)

/-- The function `resourceUserDelete`.  The package-level `headerAccept` is
declared in another file of the package and is a parameter here. -/
def resourceUserDelete (jcapiv1 : Jcapiv1) (headerAccept : String)
    (fmtPlusV : Systemuserreturn → String) (d : ResourceData) (m : ConfigurationV2) :
    Option GoError × ResourceData :=
  let configv1 := convertV2toV1Config jcapiv1 m
  let client := jcapiv1.NewAPIClient configv1
  match client.SystemusersApi.SystemusersDelete d.Id "" headerAccept with
  | (res, some err) => (some (deleteErrorf fmtPlusV err res), d)
  | (_, none) => (none, d.SetId "")

/-! ## Key lists of the operations -/

/-- The keys `resourceUserCreate` passes to `d.Get`, in source order. -/
def resourceUserCreate_keys : List String :=
  ["username", "email", "firstname", "lastname", "enable_mfa", "ldap_binding",
   "id_sync", "global_admin", "passwordless_sudo", "unix-uid", "unix-guid", "xorgid"]

/-- The keys `resourceUserUpdate` passes to `d.Get`, in source order. -/
def resourceUserUpdate_keys : List String :=
  ["username", "email", "firstname", "lastname", "enable_mfa", "ldap_binding",
   "id_sync", "global_admin", "unix-uid", "unix-guid", "xorgid"]

/-- The keys `resourceUserRead` passes to `d.Set`, in source order. -/
def resourceUserRead_keys : List String :=
  ["username", "email", "firstname", "lastname", "enable_mfa", "ldap_binding",
   "id_sync", "global_admin", "passwordless_sudo", "unix_uid", "unix_gid"]

/-! ## Sample inputs -/

/-- A sample default v1 configuration. -/
def sampleConfiguration : Configuration :=
  { BasePath := "https://console.jumpcloud.com/api"
    Host := ""
    Scheme := ""
    DefaultHeader := []
    UserAgent := "Swagger-Codegen/1.0.0/go" }

/-- A sample v2 configuration carrying an API key. -/
def sampleV2 : ConfigurationV2 :=
  { DefaultHeader := [("x-api-key", "k3y")] }

/-- A sample remote record: user alice with id u1. -/
def aliceReturn : Systemuserreturn :=
  { Id := "u1"
    Username := "alice"
    Email := "a@x.com"
    Firstname := ""
    Lastname := ""
    EnableUserPortalMultifactor := false
    LdapBindingUser := false
    EnableManagedUid := false
    Sudo := false
    PasswordlessSudo := false
    UnixUid := 1001
    UnixGuid := 5 }

/-- A sample local state before creation: username alice, email a@x.com. -/
def aliceState : ResourceData :=
  { id := "", attrs := [("username", .str "alice"), ("email", .str "a@x.com")] }

/-- A sample client library whose every remote call succeeds with `res`. -/
def answeringLib (res : Systemuserreturn) : Jcapiv1 :=
  { NewConfiguration := sampleConfiguration
    NewAPIClient := fun _ =>
      { SystemusersApi :=
          { SystemusersPost := fun _ _ _ => (res, none)
            SystemusersGet := fun _ _ _ => (res, none)
            SystemusersPut := fun _ _ _ _ => (res, none)
            SystemusersDelete := fun _ _ _ => (res, none) } } }

/-- A sample client library whose every remote call fails with `err`,
handing back `res` as the returned object. -/
def failingLib (err : GoError) (res : Systemuserreturn) : Jcapiv1 :=
  { NewConfiguration := sampleConfiguration
    NewAPIClient := fun _ =>
      { SystemusersApi :=
          { SystemusersPost := fun _ _ _ => (res, some err)
            SystemusersGet := fun _ _ _ => (res, some err)
            SystemusersPut := fun _ _ _ _ => (res, some err)
            SystemusersDelete := fun _ _ _ => (res, some err) } } }

/-- A sample rendering of a returned object: its id between braces. -/
def sampleFmt (res : Systemuserreturn) : String :=
  "\x7bId:" ++ res.Id ++ "\x7d"

/-- A sample v2 configuration with the same API key and other headers. -/
def sampleV2other : ConfigurationV2 :=
  { DefaultHeader := [("accept", "application/json"), ("x-api-key", "k3y")] }

/-- A sample local state of alice with id u1 and passwordless sudo on. -/
def aliceSudoOn : ResourceData :=
  { id := "u1"
    attrs := [("passwordless_sudo", .bool true), ("username", .str "alice"),
      ("email", .str "a@x.com")] }

/-- A sample local state of alice with id u1 and passwordless sudo off. -/
def aliceSudoOff : ResourceData :=
  { id := "u1"
    attrs := [("passwordless_sudo", .bool false), ("username", .str "alice"),
      ("email", .str "a@x.com")] }

/-- A sample accessor: that of a host which holds the values of alice under
the keys the payload literals read, the unix ids as `int32`, and
passwordless_sudo as given. -/
def sampleGet (passwordless : Bool) (key : String) : Value :=
  if key = "passwordless_sudo" then .bool passwordless
  else
    (List.lookup key
      [("username", .str "alice"), ("email", .str "a@x.com"), ("firstname", .str "Alice"),
       ("lastname", .str "Liddell"), ("enable_mfa", .bool true), ("ldap_binding", .bool false),
       ("id_sync", .bool false), ("global_admin", .bool true), ("unix-uid", .int32 1001),
       ("unix-guid", .int32 5), ("xorgid", .str "org1")]).getD .nil

/-- The update request of the sample accessor. -/
def samplePut : PutOptionals :=
  { body :=
      { Username := "alice"
        Email := "a@x.com"
        Firstname := "Alice"
        Lastname := "Liddell"
        EnableUserPortalMultifactor := true
        LdapBindingUser := false
        EnableManagedUid := false
        Sudo := true
        UnixUid := 1001
        UnixGuid := 5 }
    xOrgId := "org1" }

/-- A sample create request. -/
def samplePost : PostOptionals :=
  { body :=
      { Username := "alice"
        Email := "a@x.com"
        Firstname := "Alice"
        Lastname := "Liddell"
        EnableUserPortalMultifactor := true
        LdapBindingUser := false
        EnableManagedUid := false
        Sudo := true
        PasswordlessSudo := true
        UnixUid := 1001
        UnixGuid := 5 }
    xOrgId := "org1" }

/-- A sample client library whose POST and PUT fail with `err` while its
GET and DELETE succeed with `res`. -/
def writeFailingLib (err : GoError) (res : Systemuserreturn) : Jcapiv1 :=
  { NewConfiguration := sampleConfiguration
    NewAPIClient := fun _ =>
      { SystemusersApi :=
          { SystemusersPost := fun _ _ _ => (res, some err)
            SystemusersGet := fun _ _ _ => (res, none)
            SystemusersPut := fun _ _ _ _ => (res, some err)
            SystemusersDelete := fun _ _ _ => (res, none) } } }

/-! ## Lemmas on Go maps -/

theorem GoMap.get_set_self (m : GoMap) (k v : String) : (m.set k v).get k = v := by
  simp [GoMap.get, GoMap.set, List.lookup]

theorem GoMap.lookup_filter_ne (m : GoMap) (k j : String) (h : j ≠ k) :
    (m.filter (fun kv => kv.1 != k)).lookup j = m.lookup j := by
  induction m with
  | nil => rfl
  | cons kv rest ih =>
    obtain ⟨a, b⟩ := kv
    by_cases hak : a = k
    · subst hak
      have hja : (j == a) = false := by simpa using h
      simp [List.filter, List.lookup, hja, ih]
    · have hak2 : (a != k) = true := by simpa using hak
      simp only [List.filter, hak2, List.lookup, ih]

theorem GoMap.get_set_other (m : GoMap) (k v j : String) (h : j ≠ k) :
    (m.set k v).get j = m.get j := by
  have hjk : (j == k) = false := by simpa using h
  simp [GoMap.get, GoMap.set, List.lookup, hjk, GoMap.lookup_filter_ne m k j h]

/-! ## Theorems -/

/-- C1: when the GET made by `resourceUserRead` fails with an error whose
message is exactly EOF, the read returns no error and the id of the local
state is the empty string afterwards. -/
theorem resourceUserRead_not_found (jcapiv1 : Jcapiv1) (d : ResourceData)
    (m : ConfigurationV2) (res : Systemuserreturn) (err : GoError)
    (hget : (jcapiv1.NewAPIClient (convertV2toV1Config jcapiv1 m)).SystemusersApi.SystemusersGet
      d.Id "" "" = (res, some err))
    (heof : err.Error = "EOF") :
    (resourceUserRead jcapiv1 d m).1 = none ∧ (resourceUserRead jcapiv1 d m).2.Id = "" := by
  simp only [resourceUserRead, hget]
  simp [heof, ResourceData.SetId, ResourceData.Id]

/-- Witness of C1 at a library failing with EOF, on a state with id u1. -/
theorem resourceUserRead_not_found_witness :
    (resourceUserRead (failingLib (.lib 0 "EOF") aliceReturn) (aliceState.SetId "u1") sampleV2).1
        = none ∧
      (resourceUserRead (failingLib (.lib 0 "EOF") aliceReturn) (aliceState.SetId "u1")
        sampleV2).2.Id = "" :=
  resourceUserRead_not_found (failingLib (.lib 0 "EOF") aliceReturn) (aliceState.SetId "u1")
    sampleV2 aliceReturn (.lib 0 "EOF") rfl rfl

/-- C2: when the GET made by `resourceUserRead` fails with an error whose
message is not EOF, the read returns that very error and the id of the
local state is unchanged. -/
theorem resourceUserRead_other_error (jcapiv1 : Jcapiv1) (d : ResourceData)
    (m : ConfigurationV2) (res : Systemuserreturn) (err : GoError)
    (hget : (jcapiv1.NewAPIClient (convertV2toV1Config jcapiv1 m)).SystemusersApi.SystemusersGet
      d.Id "" "" = (res, some err))
    (hne : err.Error ≠ "EOF") :
    (resourceUserRead jcapiv1 d m).1 = some err ∧
      (resourceUserRead jcapiv1 d m).2.Id = d.Id ∧ (resourceUserRead jcapiv1 d m).2 = d := by
  simp [resourceUserRead, hget, hne]

/-- Witness of C2 at a library failing with a timeout, on a state with id u1. -/
theorem resourceUserRead_other_error_witness :
    (resourceUserRead (failingLib (.lib 1 "timeout") aliceReturn) (aliceState.SetId "u1")
        sampleV2).1 = some (.lib 1 "timeout") ∧
      (resourceUserRead (failingLib (.lib 1 "timeout") aliceReturn) (aliceState.SetId "u1")
        sampleV2).2.Id = "u1" ∧
      (resourceUserRead (failingLib (.lib 1 "timeout") aliceReturn) (aliceState.SetId "u1")
        sampleV2).2 = aliceState.SetId "u1" :=
  resourceUserRead_other_error (failingLib (.lib 1 "timeout") aliceReturn)
    (aliceState.SetId "u1") sampleV2 aliceReturn (.lib 1 "timeout") rfl (by decide)

/-- C7: when the DELETE made by `resourceUserDelete` succeeds, the delete
returns no error, the id of the local state is the empty string afterwards
and every attribute of the local state is as before. -/
theorem resourceUserDelete_success (jcapiv1 : Jcapiv1) (headerAccept : String)
    (fmtPlusV : Systemuserreturn → String) (d : ResourceData) (m : ConfigurationV2)
    (res : Systemuserreturn)
    (hdel : (jcapiv1.NewAPIClient
      (convertV2toV1Config jcapiv1 m)).SystemusersApi.SystemusersDelete
        d.Id "" headerAccept = (res, none)) :
    (resourceUserDelete jcapiv1 headerAccept fmtPlusV d m).1 = none ∧
      (resourceUserDelete jcapiv1 headerAccept fmtPlusV d m).2.Id = "" ∧
      (resourceUserDelete jcapiv1 headerAccept fmtPlusV d m).2.attrs = d.attrs ∧
      ∀ key, (resourceUserDelete jcapiv1 headerAccept fmtPlusV d m).2.Get key = d.Get key := by
  simp only [resourceUserDelete, hdel]
  simp [ResourceData.SetId, ResourceData.Id, ResourceData.Get]

/-- Witness of C7 at a library whose calls succeed, on the state of alice
with id u1. -/
theorem resourceUserDelete_success_witness :
    (resourceUserDelete (answeringLib aliceReturn) "application/json" sampleFmt
        (aliceState.SetId "u1") sampleV2).1 = none ∧
      (resourceUserDelete (answeringLib aliceReturn) "application/json" sampleFmt
        (aliceState.SetId "u1") sampleV2).2.Id = "" ∧
      (resourceUserDelete (answeringLib aliceReturn) "application/json" sampleFmt
        (aliceState.SetId "u1") sampleV2).2.attrs = (aliceState.SetId "u1").attrs ∧
      ∀ key, (resourceUserDelete (answeringLib aliceReturn) "application/json" sampleFmt
        (aliceState.SetId "u1") sampleV2).2.Get key = (aliceState.SetId "u1").Get key :=
  resourceUserDelete_success (answeringLib aliceReturn) "application/json" sampleFmt
    (aliceState.SetId "u1") sampleV2 aliceReturn rfl

/-- C8: when the DELETE made by `resourceUserDelete` fails with error `err`
and returned object `res`, the delete returns an error, never success; the
message of that error is the fixed text with the message of `err` and the
rendering of `res` inserted, so it contains both; and the id of the local
state is not cleared: the local state is unchanged. -/
theorem resourceUserDelete_failure (jcapiv1 : Jcapiv1) (headerAccept : String)
    (fmtPlusV : Systemuserreturn → String) (d : ResourceData) (m : ConfigurationV2)
    (res : Systemuserreturn) (err : GoError)
    (hdel : (jcapiv1.NewAPIClient
      (convertV2toV1Config jcapiv1 m)).SystemusersApi.SystemusersDelete
        d.Id "" headerAccept = (res, some err)) :
    ∃ e : GoError,
      (resourceUserDelete jcapiv1 headerAccept fmtPlusV d m).1 = some e ∧
      e.Error = "error deleting user group:" ++ err.Error ++ "; response = " ++ fmtPlusV res ∧
      err.Error.data <:+: e.Error.data ∧
      (fmtPlusV res).data <:+: e.Error.data ∧
      (resourceUserDelete jcapiv1 headerAccept fmtPlusV d m).2.Id = d.Id ∧
      (resourceUserDelete jcapiv1 headerAccept fmtPlusV d m).2 = d := by
  refine ⟨deleteErrorf fmtPlusV err res, ?_, rfl, ?_, ?_, ?_, ?_⟩
  · simp only [resourceUserDelete, hdel]
  · refine ⟨"error deleting user group:".data, ("; response = " ++ fmtPlusV res).data, ?_⟩
    simp [deleteErrorf, GoError.Error, String.data_append]
  · refine ⟨("error deleting user group:" ++ err.Error ++ "; response = ").data, [], ?_⟩
    simp [deleteErrorf, GoError.Error, String.data_append]
  · simp only [resourceUserDelete, hdel]
  · simp only [resourceUserDelete, hdel]

/-- Witness of C8 at a library failing with a timeout, on the state of
alice with id u1. -/
theorem resourceUserDelete_failure_witness :
    ∃ e : GoError,
      (resourceUserDelete (failingLib (.lib 1 "timeout") aliceReturn) "application/json"
        sampleFmt (aliceState.SetId "u1") sampleV2).1 = some e ∧
      e.Error = "error deleting user group:" ++ (GoError.lib 1 "timeout").Error
        ++ "; response = " ++ sampleFmt aliceReturn ∧
      (GoError.lib 1 "timeout").Error.data <:+: e.Error.data ∧
      (sampleFmt aliceReturn).data <:+: e.Error.data ∧
      (resourceUserDelete (failingLib (.lib 1 "timeout") aliceReturn) "application/json"
        sampleFmt (aliceState.SetId "u1") sampleV2).2.Id = (aliceState.SetId "u1").Id ∧
      (resourceUserDelete (failingLib (.lib 1 "timeout") aliceReturn) "application/json"
        sampleFmt (aliceState.SetId "u1") sampleV2).2 = aliceState.SetId "u1" :=
  resourceUserDelete_failure (failingLib (.lib 1 "timeout") aliceReturn) "application/json"
    sampleFmt (aliceState.SetId "u1") sampleV2 aliceReturn (.lib 1 "timeout") rfl

/-- C10: `convertV2toV1Config c` is the default v1 configuration with the
header x-api-key set to that header of `c` (the empty string when `c` has
none); every other field and header is the one of the default
configuration; and two v2 configurations with the same x-api-key header
give equal v1 configurations. -/
theorem convertV2toV1Config_spec (jcapiv1 : Jcapiv1) (c c2 : ConfigurationV2)
    (h : c.DefaultHeader.get "x-api-key" = c2.DefaultHeader.get "x-api-key") :
    (convertV2toV1Config jcapiv1 c).DefaultHeader.get "x-api-key"
        = c.DefaultHeader.get "x-api-key" ∧
      (c.DefaultHeader.lookup "x-api-key" = none →
        (convertV2toV1Config jcapiv1 c).DefaultHeader.get "x-api-key" = "") ∧
      (convertV2toV1Config jcapiv1 c).BasePath = jcapiv1.NewConfiguration.BasePath ∧
      (convertV2toV1Config jcapiv1 c).Host = jcapiv1.NewConfiguration.Host ∧
      (convertV2toV1Config jcapiv1 c).Scheme = jcapiv1.NewConfiguration.Scheme ∧
      (convertV2toV1Config jcapiv1 c).UserAgent = jcapiv1.NewConfiguration.UserAgent ∧
      (∀ k, k ≠ "x-api-key" →
        (convertV2toV1Config jcapiv1 c).DefaultHeader.get k
          = jcapiv1.NewConfiguration.DefaultHeader.get k) ∧
      convertV2toV1Config jcapiv1 c = convertV2toV1Config jcapiv1 c2 := by
  refine ⟨?_, ?_, rfl, rfl, rfl, rfl, ?_, ?_⟩
  · simp [convertV2toV1Config, Configuration.AddDefaultHeader, GoMap.get_set_self]
  · intro hnone
    simp only [convertV2toV1Config, Configuration.AddDefaultHeader, GoMap.get_set_self]
    simp [GoMap.get, hnone]
  · intro k hk
    simp [convertV2toV1Config, Configuration.AddDefaultHeader,
      GoMap.get_set_other _ _ _ k hk]
  · simp [convertV2toV1Config, h]

/-- Witness of C10 at two v2 configurations that carry the same API key and
differ in their other headers. -/
theorem convertV2toV1Config_spec_witness :
    (convertV2toV1Config (answeringLib aliceReturn) sampleV2).DefaultHeader.get "x-api-key"
        = "k3y" ∧
      convertV2toV1Config (answeringLib aliceReturn) sampleV2
        = convertV2toV1Config (answeringLib aliceReturn) sampleV2other :=
  ⟨(convertV2toV1Config_spec (answeringLib aliceReturn) sampleV2 sampleV2other rfl).1,
   (convertV2toV1Config_spec (answeringLib aliceReturn) sampleV2 sampleV2other rfl).2.2.2.2.2.2.2⟩

/-- The request of update is determined by what the accessor gives on the
keys of `resourceUserUpdate_keys`. -/
theorem resourceUserUpdate_req_congr (Get1 Get2 : String → Value)
    (h : ∀ key ∈ resourceUserUpdate_keys, Get1 key = Get2 key) :
    resourceUserUpdate_req Get1 = resourceUserUpdate_req Get2 := by
  simp only [resourceUserUpdate_req, resourceUserUpdate_payload,
    h "username" (by decide), h "email" (by decide), h "firstname" (by decide),
    h "lastname" (by decide), h "enable_mfa" (by decide), h "ldap_binding" (by decide),
    h "id_sync" (by decide), h "global_admin" (by decide), h "unix-uid" (by decide),
    h "unix-guid" (by decide), h "xorgid" (by decide)]

/-- The request of create is determined by what `Get` gives on the keys of
`resourceUserCreate_keys`. -/
theorem resourceUserCreate_req_congr (d1 d2 : ResourceData)
    (h : ∀ key ∈ resourceUserCreate_keys, d1.Get key = d2.Get key) :
    resourceUserCreate_req d1 = resourceUserCreate_req d2 := by
  simp only [resourceUserCreate_req, resourceUserCreate_payload,
    h "username" (by decide), h "email" (by decide), h "firstname" (by decide),
    h "lastname" (by decide), h "enable_mfa" (by decide), h "ldap_binding" (by decide),
    h "id_sync" (by decide), h "global_admin" (by decide),
    h "passwordless_sudo" (by decide), h "unix-uid" (by decide),
    h "unix-guid" (by decide), h "xorgid" (by decide)]

/-- C5: a local state enters the update request through its id `d.Id()` and
its accessor `d.Get` only.  For any two local states with the same id and
any two accessors that agree on every key other than passwordless_sudo
(in particular `d1.Get` and `d2.Get` of states that differ in
passwordless_sudo only), the update request is the same: the same id and
the same `req` map (payload and xOrgId); where one accessor yields a
request, the other yields that very request. -/
theorem resourceUserUpdate_req_independent (d1 d2 : ResourceData)
    (Get1 Get2 : String → Value) (hid : d1.Id = d2.Id)
    (h : ∀ key, key ≠ "passwordless_sudo" → Get1 key = Get2 key) :
    (d1.Id, resourceUserUpdate_req Get1) = (d2.Id, resourceUserUpdate_req Get2) ∧
      ∀ req, resourceUserUpdate_req Get1 = .ok req → resourceUserUpdate_req Get2 = .ok req := by
  have hreq : resourceUserUpdate_req Get1 = resourceUserUpdate_req Get2 := by
    apply resourceUserUpdate_req_congr
    intro key hkey
    apply h
    rintro rfl
    revert hkey
    decide
  refine ⟨by rw [hid, hreq], ?_⟩
  intro req hok
  rw [← hreq, hok]

/-- Witness of C5 at the two states of alice with id u1 and the two sample
accessors, which differ in passwordless_sudo only: both yield the request
`samplePut`, with id u1. -/
theorem resourceUserUpdate_req_independent_witness :
    sampleGet true "passwordless_sudo" = .bool true ∧
      sampleGet false "passwordless_sudo" = .bool false ∧
      resourceUserUpdate_req (sampleGet true) = .ok samplePut ∧
      resourceUserUpdate_req (sampleGet false) = .ok samplePut ∧
      (aliceSudoOn.Id, resourceUserUpdate_req (sampleGet true))
        = (aliceSudoOff.Id, resourceUserUpdate_req (sampleGet false)) :=
  have hagree : ∀ key, key ≠ "passwordless_sudo" → sampleGet true key = sampleGet false key := by
    intro key hkey
    simp [sampleGet, hkey]
  ⟨by decide, by decide, rfl,
   (resourceUserUpdate_req_independent aliceSudoOn aliceSudoOff (sampleGet true)
      (sampleGet false) rfl hagree).2 samplePut rfl,
   (resourceUserUpdate_req_independent aliceSudoOn aliceSudoOff (sampleGet true)
      (sampleGet false) rfl hagree).1⟩

/-! ### The undeclared keys

The payload literals of create and update read the keys unix-uid and
unix-guid, and read writes the key unix_gid; the schema declares unix_uid
and unix_guid.  The lemmas below give what follows for every input. -/

/-- Reading the key unix-uid gives the nil interface, on every local state. -/
theorem ResourceData.Get_unix_uid_hyphen (d : ResourceData) : d.Get "unix-uid" = .nil := by
  simp [ResourceData.Get, resourceUser, List.lookup]

/-- Writing the key unix_gid is refused, on every local state and value. -/
theorem ResourceData.Set_unix_gid (d : ResourceData) (v : Value) :
    d.Set "unix_gid" v
      = (some (.errorf "Invalid address to set: []string\x7b\"unix_gid\"\x7d"), d) := by
  simp only [ResourceData.Set, resourceUser, List.lookup]
  rfl

/-- Whenever its GET succeeds, `resourceUserRead` returns the error of the
refused write, on every local state and every returned object. -/
theorem resourceUserRead_success_error (jcapiv1 : Jcapiv1) (d : ResourceData)
    (m : ConfigurationV2) (res : Systemuserreturn)
    (hget : (jcapiv1.NewAPIClient (convertV2toV1Config jcapiv1 m)).SystemusersApi.SystemusersGet
      d.Id "" "" = (res, none)) :
    (resourceUserRead jcapiv1 d m).1
      = some (.errorf "Invalid address to set: []string\x7b\"unix_gid\"\x7d") := by
  simp only [resourceUserRead, hget]
  simp [orReturn, ResourceData.Set, resourceUser, List.lookup, ValueType.coerce]

/-- The payload literal of create panics on every local state. -/
theorem resourceUserCreate_payload_panics (d : ResourceData) :
    ∃ p, resourceUserCreate_payload d = .error p := by
  simp only [resourceUserCreate_payload, ResourceData.Get_unix_uid_hyphen, Value.assertInt32,
    bind, Except.bind]
  repeat' split
  all_goals exact ⟨_, rfl⟩

/-- The payload literal of update panics on every local state. -/
theorem resourceUserUpdate_payload_panics (d : ResourceData) :
    ∃ p, resourceUserUpdate_payload d.Get = .error p := by
  simp only [resourceUserUpdate_payload, ResourceData.Get_unix_uid_hyphen, Value.assertInt32,
    bind, Except.bind]
  repeat' split
  all_goals exact ⟨_, rfl⟩

/-- On every local state and against every library `resourceUserCreate`
panics: it issues no POST and returns nothing. -/
theorem resourceUserCreate_panics (jcapiv1 : Jcapiv1) (d : ResourceData)
    (m : ConfigurationV2) : ∃ p, resourceUserCreate jcapiv1 d m = .error p := by
  obtain ⟨p, hp⟩ := resourceUserCreate_payload_panics d
  exact ⟨p, by simp [resourceUserCreate, resourceUserCreate_req, hp, bind, Except.bind]⟩

/-- On every local state and against every library `resourceUserUpdate`
panics: it issues no PUT and returns nothing. -/
theorem resourceUserUpdate_panics (jcapiv1 : Jcapiv1) (d : ResourceData)
    (m : ConfigurationV2) : ∃ p, resourceUserUpdate jcapiv1 d m = .error p := by
  obtain ⟨p, hp⟩ := resourceUserUpdate_payload_panics d
  exact ⟨p, by simp [resourceUserUpdate, resourceUserUpdate_req, hp, bind, Except.bind]⟩

/-! ### The operations at the sample inputs -/

/-- C3 (the code at a successful GET): reading the state of alice with id
u1 against a library whose GET succeeds with the record of alice (unix gid
5) returns the error of the refused write of unix_gid, not success, and the
declared attribute unix_guid of the local state is still 0 afterwards. -/
theorem resourceUserRead_alice_returns_error :
    resourceUserRead (answeringLib aliceReturn) (aliceState.SetId "u1") sampleV2
        = (some (.errorf "Invalid address to set: []string\x7b\"unix_gid\"\x7d"),
           { id := "u1"
             attrs := [("unix_uid", .int 1001), ("passwordless_sudo", .bool false),
               ("global_admin", .bool false), ("id_sync", .bool false),
               ("ldap_binding", .bool false), ("enable_mfa", .bool false),
               ("lastname", .str ""), ("firstname", .str ""),
               ("email", .str "a@x.com"), ("username", .str "alice")] }) ∧
      (resourceUserRead (answeringLib aliceReturn) (aliceState.SetId "u1") sampleV2).2.Get
        "unix_guid" = .int 0 ∧
      aliceReturn.UnixGuid = 5 := by
  refine ⟨by decide, by decide, rfl⟩

/-- C4 (the code at the example of the claim): creating the state of alice
against a library whose POST and GET succeed with the record of alice, id
u1, panics at the assertion on the nil value of the key unix-uid; it
returns neither success nor a local state, and the read it would chain
into returns an error as well. -/
theorem resourceUserCreate_alice_panics :
    resourceUserCreate (answeringLib aliceReturn) aliceState sampleV2
        = .error ⟨"nil", "int32"⟩ ∧
      aliceState.Get "unix-uid" = .nil ∧
      (resourceUserRead (answeringLib aliceReturn) (aliceState.SetId aliceReturn.Id)
        sampleV2).1 = some (.errorf "Invalid address to set: []string\x7b\"unix_gid\"\x7d") := by
  refine ⟨rfl, by decide, by decide⟩

/-- C6: when the POST of a request through the client of
`resourceUserCreate` fails with error `e1`, lines 107-113 return exactly
`e1` and leave the local state, its id included, as it was: the read is not
run; so whenever create has built that request, create returns `e1` and the
state unchanged.  Likewise for the PUT of `resourceUserUpdate`, keyed by
`d.Id()`, and lines 197-202. -/
theorem resourceUserCreate_Update_error_returned (jcapiv1 : Jcapiv1) (d : ResourceData)
    (m : ConfigurationV2) (post : PostOptionals) (put : PutOptionals)
    (r1 r2 : Systemuserreturn) (e1 e2 : GoError)
    (hpost : (jcapiv1.NewAPIClient
      (convertV2toV1Config jcapiv1 m)).SystemusersApi.SystemusersPost "" "" post
        = (r1, some e1))
    (hput : (jcapiv1.NewAPIClient
      (convertV2toV1Config jcapiv1 m)).SystemusersApi.SystemusersPut d.Id "" "" put
        = (r2, some e2)) :
    resourceUserCreate_post jcapiv1 (jcapiv1.NewAPIClient (convertV2toV1Config jcapiv1 m))
        d m post = (some e1, d) ∧
      resourceUserUpdate_put jcapiv1 (jcapiv1.NewAPIClient (convertV2toV1Config jcapiv1 m))
        d m put = (some e2, d) ∧
      (resourceUserCreate_req d = .ok post →
        resourceUserCreate jcapiv1 d m = .ok (some e1, d)) ∧
      (resourceUserUpdate_req d.Get = .ok put →
        resourceUserUpdate jcapiv1 d m = .ok (some e2, d)) := by
  have h1 : resourceUserCreate_post jcapiv1
      (jcapiv1.NewAPIClient (convertV2toV1Config jcapiv1 m)) d m post = (some e1, d) := by
    simp only [resourceUserCreate_post, hpost]
  have h2 : resourceUserUpdate_put jcapiv1
      (jcapiv1.NewAPIClient (convertV2toV1Config jcapiv1 m)) d m put = (some e2, d) := by
    simp only [resourceUserUpdate_put, hput]
  refine ⟨h1, h2, ?_, ?_⟩
  · intro hreq
    simp only [resourceUserCreate, hreq, bind, Except.bind, pure, Except.pure, h1]
  · intro hreq
    simp only [resourceUserUpdate, hreq, bind, Except.bind, pure, Except.pure, h2]

/-- Witness of C6 at a library whose POST and PUT fail with the error boom
while its GET succeeds, on the state of alice with id u1: both tails return
boom and the state as it was, where a read of that state would have
returned another error and changed the state. -/
theorem resourceUserCreate_Update_error_returned_witness :
    resourceUserCreate_post (writeFailingLib (.lib 1 "boom") aliceReturn)
        ((writeFailingLib (.lib 1 "boom") aliceReturn).NewAPIClient
          (convertV2toV1Config (writeFailingLib (.lib 1 "boom") aliceReturn) sampleV2))
        aliceSudoOn sampleV2 samplePost = (some (.lib 1 "boom"), aliceSudoOn) ∧
      resourceUserUpdate_put (writeFailingLib (.lib 1 "boom") aliceReturn)
        ((writeFailingLib (.lib 1 "boom") aliceReturn).NewAPIClient
          (convertV2toV1Config (writeFailingLib (.lib 1 "boom") aliceReturn) sampleV2))
        aliceSudoOn sampleV2 samplePut = (some (.lib 1 "boom"), aliceSudoOn) ∧
      (resourceUserRead (writeFailingLib (.lib 1 "boom") aliceReturn) aliceSudoOn sampleV2).1
        = some (.errorf "Invalid address to set: []string\x7b\"unix_gid\"\x7d") ∧
      (resourceUserRead (writeFailingLib (.lib 1 "boom") aliceReturn) aliceSudoOn sampleV2).2.Get
        "passwordless_sudo" = .bool false :=
  ⟨(resourceUserCreate_Update_error_returned (writeFailingLib (.lib 1 "boom") aliceReturn)
      aliceSudoOn sampleV2 samplePost samplePut aliceReturn aliceReturn (.lib 1 "boom")
      (.lib 1 "boom") rfl rfl).1,
   (resourceUserCreate_Update_error_returned (writeFailingLib (.lib 1 "boom") aliceReturn)
      aliceSudoOn sampleV2 samplePost samplePut aliceReturn aliceReturn (.lib 1 "boom")
      (.lib 1 "boom") rfl rfl).2.1,
   by decide, by decide⟩

/-- C9 (the keys against the schema): the keys create and update read that
the schema does not declare are unix-uid and unix-guid, the key read writes
that the schema does not declare is unix_gid, so not every key of the three
operations is declared; on the sample state the read of unix-uid gives nil
and the write of unix_gid is refused. -/
theorem undeclared_keys :
    resourceUserCreate_keys.filter (fun k => !schemaKeys.contains k)
        = ["unix-uid", "unix-guid"] ∧
      resourceUserUpdate_keys.filter (fun k => !schemaKeys.contains k)
        = ["unix-uid", "unix-guid"] ∧
      resourceUserRead_keys.filter (fun k => !schemaKeys.contains k) = ["unix_gid"] ∧
      ¬ (∀ k ∈ resourceUserCreate_keys ++ resourceUserUpdate_keys ++ resourceUserRead_keys,
          k ∈ schemaKeys) ∧
      aliceState.Get "unix-uid" = .nil ∧
      aliceState.Get "unix-guid" = .nil ∧
      (aliceState.Set "unix_gid" (.int32 5)).1
        = some (.errorf "Invalid address to set: []string\x7b\"unix_gid\"\x7d") := by
  refine ⟨by decide, by decide, by decide, by decide, by decide, by decide, by decide⟩

end Jumpcloud
